import Mathlib

/-!
Shallow embedding of the macmon terminal dashboard (src/main.rs) and proofs
about its specification.  The embedding mirrors the source code: the data
structures `NodeModulesEntry`, `DockerImage`, `TopProcess`, `IssuesData`,
`AppMode` correspond to the Rust structs/enums of the same names; the
functions `disk_usage`, `memory_usage`, `swap_usage`, `scan_node_modules`,
`scan_docker_images`, `scan_issues`, `execute_cleanup`, `kill_process` and
the input-dispatch step of `run_app` are translated function by function.
Machine floating point (`f64`/`f32`) is modelled by exact rationals together
with an explicit non-finite marker produced by division by zero; the
filesystem walk and external subprocesses are modelled by their observable
results (the walk's entry stream, a command's exit status and captured
output, per-path deletion outcomes).
-/

/-- Result of an `f64` computation: either a finite value (modelled exactly
as a rational) or a non-finite value (NaN or ±∞, as produced by dividing
by zero). -/
inductive F64 where
  | finite (q : ℚ)
  | nonfinite
deriving DecidableEq

/-- IEEE division `a / b` on finite operands: non-finite exactly when the
divisor is zero (`0/0` is NaN, `x/0` is ±∞). -/
def f64_div (a b : ℚ) : F64 :=
  if b = 0 then F64.nonfinite else F64.finite (a / b)

/-- Multiplication of an `f64` result by a finite constant; non-finite
values stay non-finite. -/
def f64_mul (x : F64) (c : ℚ) : F64 :=
  match x with
  | F64.finite q => F64.finite (q * c)
  | F64.nonfinite => F64.nonfinite

/-- One disk as seen through `sysinfo::Disks`: total and available space in
bytes (`disk.total_space()` / `disk.available_space()`). -/
structure Disk where
  total_space : Nat
  available_space : Nat
deriving DecidableEq

/-- `App::disk_usage`: sums totals and used space over all disks, then
computes the percentage, guarding `total > 0` (else `0.0`). -/
def disk_usage (disks : List Disk) : Nat × Nat × F64 :=
  let total : Nat := (disks.map Disk.total_space).sum
  let used : Nat := (disks.map (fun d => d.total_space - d.available_space)).sum
  let percentage :=
    if 0 < total then F64.finite ((used : ℚ) / (total : ℚ) * 100)
    else F64.finite 0
  (used, total, percentage)

/-- `App::memory_usage`: computes `used / total * 100` with NO guard on
`total = 0` — the division is performed unconditionally. -/
def memory_usage (total used : Nat) : Nat × Nat × F64 :=
  (used, total, f64_mul (f64_div (used : ℚ) (total : ℚ)) 100)

/-- `App::swap_usage`: computes the percentage guarding `total > 0`
(else `0.0`). -/
def swap_usage (total used : Nat) : Nat × Nat × F64 :=
  (used, total,
    if 0 < total then F64.finite ((used : ℚ) / (total : ℚ) * 100)
    else F64.finite 0)

/-- Rust struct `NodeModulesEntry { path, size }` (one discovered cache
directory; `size` in bytes). -/
structure NodeModulesEntry where
  path : String
  size : Nat
deriving DecidableEq

/-- Rust struct `DockerImage { name, size, created }` (labels are opaque
tool-provided strings). -/
structure DockerImage where
  name : String
  size : String
  created : String
deriving DecidableEq

/-- Rust struct `TopProcess { name, cpu, memory, pid }`; `cpu` is an `f32`
percentage modelled as an exact rational, `memory` in bytes. -/
structure TopProcess where
  name : String
  cpu : ℚ
  memory : Nat
  pid : Nat
deriving DecidableEq

/-- Rust struct `IssuesData`: the single piece of state shared between the
scanner thread and the interaction loop. -/
structure IssuesData where
  node_modules : List NodeModulesEntry
  docker_images : List DockerImage
  top_processes : List TopProcess
  scanning : Bool
deriving DecidableEq

/-- `IssuesData::default()`: empty lists, `scanning = true`. -/
def IssuesData.default : IssuesData :=
  ⟨[], [], [], true⟩

/-- Rust enum `AppMode`. -/
inductive AppMode where
  | Normal
  | CleanupMenu (selected : Nat)
  | KillProcessMenu (selected : Nat)
deriving DecidableEq

/-- The key codes distinguished by `run_app`'s match arms; every other key
is the wildcard `other`. -/
inductive KeyCode where
  | charQ
  | charC
  | charK
  | charJ
  | esc
  | up
  | down
  | enter
  | other
deriving DecidableEq

/-- Observable destructive side effects dispatched by the interaction loop:
the three `execute_cleanup` arms and a `kill -9` sent to one PID. -/
inductive Effect where
  | cleanCaches
  | dockerPrune
  | brewCleanup
  | killPid (pid : Nat)
deriving DecidableEq

/-- Effects of `execute_cleanup` for a given menu option (option 3 is
handled before `execute_cleanup` is reached; options ≥ 4 hit the `_ => {}`
arm). -/
def cleanup_effects (option : Nat) : List Effect :=
  match option with
  | 0 => [Effect.cleanCaches]
  | 1 => [Effect.dockerPrune]
  | 2 => [Effect.brewCleanup]
  | _ => []

/-- One iteration of `run_app`'s key dispatch: given the current
`top_processes` snapshot (read under the lock by the `KillProcessMenu`
arms), the current mode and the key, returns the next mode (`none` means
the `'q'`-in-`Normal` return, i.e. quit) together with the destructive
effects dispatched by this key. -/
def run_app_step (procs : List TopProcess) (mode : AppMode) (key : KeyCode) :
    Option AppMode × List Effect :=
  match mode, key with
  | AppMode.Normal, KeyCode.charQ => (none, [])
  | AppMode.Normal, KeyCode.charC => (some (AppMode.CleanupMenu 0), [])
  | AppMode.Normal, _ => (some AppMode.Normal, [])
  | AppMode.CleanupMenu _, KeyCode.charQ => (some AppMode.Normal, [])
  | AppMode.CleanupMenu _, KeyCode.esc => (some AppMode.Normal, [])
  | AppMode.CleanupMenu s, KeyCode.up =>
      (some (AppMode.CleanupMenu (if 0 < s then s - 1 else 3)), [])
  | AppMode.CleanupMenu s, KeyCode.charK =>
      (some (AppMode.CleanupMenu (if 0 < s then s - 1 else 3)), [])
  | AppMode.CleanupMenu s, KeyCode.down =>
      (some (AppMode.CleanupMenu (if s < 3 then s + 1 else 0)), [])
  | AppMode.CleanupMenu s, KeyCode.charJ =>
      (some (AppMode.CleanupMenu (if s < 3 then s + 1 else 0)), [])
  | AppMode.CleanupMenu s, KeyCode.enter =>
      if s = 3 then (some (AppMode.KillProcessMenu 0), [])
      else (some AppMode.Normal, cleanup_effects s)
  | AppMode.CleanupMenu s, _ => (some (AppMode.CleanupMenu s), [])
  | AppMode.KillProcessMenu _, KeyCode.charQ => (some (AppMode.CleanupMenu 0), [])
  | AppMode.KillProcessMenu _, KeyCode.esc => (some (AppMode.CleanupMenu 0), [])
  | AppMode.KillProcessMenu s, KeyCode.up =>
      (some (AppMode.KillProcessMenu
        (if 0 < s then s - 1 else procs.length - 1)), [])
  | AppMode.KillProcessMenu s, KeyCode.charK =>
      (some (AppMode.KillProcessMenu
        (if 0 < s then s - 1 else procs.length - 1)), [])
  | AppMode.KillProcessMenu s, KeyCode.down =>
      (some (AppMode.KillProcessMenu
        (if s < procs.length - 1 then s + 1 else 0)), [])
  | AppMode.KillProcessMenu s, KeyCode.charJ =>
      (some (AppMode.KillProcessMenu
        (if s < procs.length - 1 then s + 1 else 0)), [])
  | AppMode.KillProcessMenu s, KeyCode.enter =>
      (some (AppMode.CleanupMenu 0),
        ((procs[s]?).map (fun p => Effect.killPid p.pid)).toList)
  | AppMode.KillProcessMenu s, _ => (some (AppMode.KillProcessMenu s), [])

/-- `kill_process`: looks the selected index up with the `Option`-returning
`get`, sends `kill -9 <pid>` when present (the command's outcome
`cmdResult` is discarded with `let _ =`), and returns `Ok(())` in every
case.  Result: the PID a termination request was sent to (if any), and the
function's `io::Result`. -/
def kill_process (procs : List TopProcess) (index : Nat)
    (cmdResult : Nat → Except String Unit) : Option Nat × Except String Unit :=
  match procs[index]? with
  | some p =>
      let _sig := cmdResult p.pid
      (some p.pid, Except.ok ())
  | none => (none, Except.ok ())

/-- One entry produced by the bounded `WalkDir` traversal in
`scan_node_modules` (the walk itself — depth bound, hidden-name and
deny-list filtering — is modelled by the stream of entries it yields):
the entry's path, its file name, whether it is a directory, and the sizes
of the files found under it by the inner size walk. -/
structure WalkEntry where
  path : String
  fileName : String
  isDir : Bool
  fileSizes : List Nat
deriving DecidableEq

/-- `calculate_dir_size`: sums the sizes of the files under the directory
(entries whose metadata fails are skipped by the source's `filter_map`,
so they simply do not appear in `fileSizes`); always returns `Ok`. -/
def calculate_dir_size (fileSizes : List Nat) : Except String Nat :=
  Except.ok fileSizes.sum

/-- `scan_node_modules`: keep every walk entry that is a directory named
`node_modules` whose computed size exceeds `100_000_000` bytes. -/
def scan_node_modules (walk : List WalkEntry) : List NodeModulesEntry :=
  walk.filterMap fun e =>
    if e.isDir && e.fileName == "node_modules" then
      match calculate_dir_size e.fileSizes with
      | Except.ok size =>
          if 100000000 < size then some ⟨e.path, size⟩ else none
      | Except.error _ => none
    else none

/-- `b.size.cmp(&a.size)` as a relation: `a` precedes `b` when `a`'s size
is at least `b`'s (descending by size). -/
def size_desc (a b : NodeModulesEntry) : Prop :=
  b.size ≤ a.size

instance : DecidableRel size_desc :=
  fun a b => inferInstanceAs (Decidable (b.size ≤ a.size))

instance : IsTotal NodeModulesEntry size_desc :=
  ⟨fun a b => (Nat.le_total a.size b.size).symm⟩

instance : IsTrans NodeModulesEntry size_desc :=
  ⟨fun _ _ _ h1 h2 => Nat.le_trans h2 h1⟩

/-- The `sort_by` + `truncate(10)` applied to the scan result in
`scan_issues`. -/
def scan_caches (walk : List WalkEntry) : List NodeModulesEntry :=
  (List.insertionSort size_desc (scan_node_modules walk)).take 10

/-- Captured outcome of a spawned command: exit status success flag and
raw stdout (`Command::output()` returning `Err` — e.g. the binary is
absent — is modelled by `none` at the call site). -/
structure CmdOutput where
  success : Bool
  stdout : String
deriving DecidableEq

/-- Split a character list at every occurrence of `c` (the groups do not
contain `c`). -/
def splitCh (c : Char) : List Char → List (List Char)
  | [] => [[]]
  | a :: rest =>
    match splitCh c rest with
    | [] => [[]]
    | g :: gs => if a = c then [] :: g :: gs else (a :: g) :: gs

/-- Drop one trailing carriage return, as Rust's `str::lines` does per
line. -/
def strip_cr (l : List Char) : List Char :=
  if l.getLast? = some (Char.ofNat 13) then l.dropLast else l

/-- `stdout.lines()`: split at newlines, strip a trailing `\r` from each
line.  (Rust's `lines` omits the final empty chunk of a trailing newline;
here that chunk survives as `""` and is removed by the explicit
`!line.is_empty()` filter that always follows in the source.) -/
def rust_lines (s : String) : List String :=
  (splitCh (Char.ofNat 10) s.data).map (fun l => String.mk (strip_cr l))

/-- The per-line parser inside `scan_docker_images`: split at tabs, accept
lines with at least three fields, keep the first three as
`(name, size label, created label)`. -/
def parse_image_line (line : String) : Option DockerImage :=
  match (splitCh (Char.ofNat 9) line.data).map (fun g => String.mk g) with
  | name :: size :: created :: _ => some ⟨name, size, created⟩
  | _ => none

/-- `scan_docker_images`: if the `docker images` command could not be run
(`none`) or exited non-zero, return the empty list; otherwise parse the
non-empty stdout lines and keep the first 10 parsed images. -/
def scan_docker_images (out : Option CmdOutput) : List DockerImage :=
  match out with
  | some o =>
      if o.success then
        (((rust_lines o.stdout).filter (fun line => ¬ line = "")).filterMap
          parse_image_line).take 10
      else []
  | none => []

/-- The single critical section at the end of `scan_issues`: under the one
lock it assigns `node_modules`, `docker_images` and `scanning = false`
and touches nothing else. -/
def scan_publish (d : IssuesData) (nm : List NodeModulesEntry)
    (di : List DockerImage) : IssuesData :=
  { d with node_modules := nm, docker_images := di, scanning := false }

/-- The critical section at the end of `App::update_top_processes`: under
the lock it assigns `top_processes` and touches nothing else. -/
def publish_top_processes (d : IssuesData) (ps : List TopProcess) : IssuesData :=
  { d with top_processes := ps }

/-- `scan_issues`: scan for `node_modules` directories, sort descending by
size and keep 10, list docker images, then publish both results and clear
`scanning` in one critical section. -/
def scan_issues (walk : List WalkEntry) (docker : Option CmdOutput)
    (d : IssuesData) : IssuesData :=
  scan_publish d (scan_caches walk) (scan_docker_images docker)

/-- Composite score used by `update_top_processes`:
`cpu + memory as f32 / 1_000_000.0`. -/
def composite_score (p : TopProcess) : ℚ :=
  p.cpu + (p.memory : ℚ) / 1000000

/-- The comparator `b_score.partial_cmp(&a_score)` as a relation: `a`
precedes `b` when `a`'s score is at least `b`'s (descending by score). -/
def score_desc (a b : TopProcess) : Prop :=
  composite_score b ≤ composite_score a

instance : DecidableRel score_desc :=
  fun a b => inferInstanceAs (Decidable (composite_score b ≤ composite_score a))

instance : IsTotal TopProcess score_desc :=
  ⟨fun a b => (le_total (composite_score a) (composite_score b)).symm⟩

instance : IsTrans TopProcess score_desc :=
  ⟨fun _ _ _ h1 h2 => le_trans h2 h1⟩

/-- The ranking step of `update_top_processes`: sort the sampled processes
descending by composite score and keep the first 5. -/
def rank_processes (ps : List TopProcess) : List TopProcess :=
  (List.insertionSort score_desc ps).take 5

/-- `execute_cleanup`: dispatch on the menu option.  Option 0 attempts
`remove_dir_all` on every discovered `node_modules` path in order, each
outcome (`rmResult`) discarded with `let _ =`; options 1 and 2 spawn one
external command each, outcome (`cmdResult`) discarded; any other option
does nothing.  Returns the list of attempts (path or command, with its
outcome) and the function's `io::Result`, which is always `Ok(())`. -/
def execute_cleanup (issues : IssuesData)
    (rmResult : String → Except String Unit)
    (cmdResult : String → Except String Unit) (option : Nat) :
    List (String × Except String Unit) × Except String Unit :=
  match option with
  | 0 => (issues.node_modules.map (fun nm => (nm.path, rmResult nm.path)),
          Except.ok ())
  | 1 => ([("docker image prune -af", cmdResult "docker image prune -af")],
          Except.ok ())
  | 2 => ([("brew cleanup -s", cmdResult "brew cleanup -s")], Except.ok ())
  | _ => ([], Except.ok ())

/-- Events affecting the interaction loop's observable state: a key press,
or a periodic refresh replacing the `top_processes` snapshot (the scanner
and `update_top_processes` are the only writers of `IssuesData`; only the
process list matters for menu navigation). -/
inductive SysEvent where
  | key (k : KeyCode)
  | refresh (newProcs : List TopProcess)
deriving DecidableEq

/-- One step of the combined system: a refresh replaces the process list
and leaves the mode alone (as `update_top_processes` does); a key press
steps the mode via `run_app_step` (a quit leaves the state unchanged,
since the loop returns). -/
def sysStep (st : List TopProcess × AppMode) (ev : SysEvent) :
    List TopProcess × AppMode :=
  match ev with
  | SysEvent.refresh ps => (ps, st.2)
  | SysEvent.key k =>
      match (run_app_step st.1 st.2 k).1 with
      | some m => (st.1, m)
      | none => st

/-- Run a sequence of events from a start state. -/
def sysRun (st : List TopProcess × AppMode) (evs : List SysEvent) :
    List TopProcess × AppMode :=
  evs.foldl sysStep st

/-- C1 counterexample: `App::memory_usage` does not guard `total = 0` —
with `total = 0` (and `used = 0`) the computed percentage is the
non-finite result of a division by zero, not `0`. -/
theorem c1_counterexample :
    (memory_usage 0 0).2.2 = F64.nonfinite ∧
    ¬ (memory_usage 0 0).2.2 = F64.finite 0 := by
  decide

/-- C1 (amended): `disk_usage` and `swap_usage` guard the division —
`total = 0` yields exactly `0` percent and `used = total > 0` yields
exactly `100` percent; `memory_usage` divides unconditionally, so
`total = 0` yields a non-finite value (NaN/∞) while `used = total > 0`
still yields `100`. -/
theorem c1_amended (disks : List Disk) (mt su st : Nat) :
    ((disks.map Disk.total_space).sum = 0 →
      (disk_usage disks).2.2 = F64.finite 0) ∧
    ((∀ d ∈ disks, d.available_space = 0) →
      0 < (disks.map Disk.total_space).sum →
      (disk_usage disks).2.2 = F64.finite 100) ∧
    (swap_usage 0 su).2.2 = F64.finite 0 ∧
    (0 < st → (swap_usage st st).2.2 = F64.finite 100) ∧
    (memory_usage 0 su).2.2 = F64.nonfinite ∧
    (0 < mt → (memory_usage mt mt).2.2 = F64.finite 100) := by
  refine ⟨fun h0 => ?_, fun hall hpos => ?_, ?_, fun hst => ?_, ?_, fun hmt => ?_⟩
  · simp [disk_usage, h0]
  · have hused : (disks.map (fun d => d.total_space - d.available_space)).sum =
        (disks.map Disk.total_space).sum := by
      congr 1
      exact List.map_congr_left fun d hd => by rw [hall d hd, Nat.sub_zero]
    have hne : ((disks.map Disk.total_space).sum : ℚ) ≠ 0 :=
      Nat.cast_ne_zero.mpr ((by omega : (disks.map Disk.total_space).sum ≠ 0))
    simp only [disk_usage, hpos, if_true, hused]
    rw [div_self hne, one_mul]
  · rfl
  · have hne : ((st : ℚ)) ≠ 0 := Nat.cast_ne_zero.mpr ((by omega : st ≠ 0))
    simp only [swap_usage, hst, if_true]
    rw [div_self hne, one_mul]
  · rfl
  · have hne : ((mt : ℚ)) ≠ 0 := Nat.cast_ne_zero.mpr ((by omega : mt ≠ 0))
    simp only [memory_usage, f64_div, f64_mul, hne, if_neg, if_false]
    rw [div_self hne, one_mul]

/-- C1 witness: the amended statement evaluated at concrete inputs. -/
theorem c1_amended_witness :
    (disk_usage [⟨0, 0⟩]).2.2 = F64.finite 0 ∧
    (disk_usage [⟨8, 0⟩]).2.2 = F64.finite 100 ∧
    (swap_usage 0 7).2.2 = F64.finite 0 ∧
    (swap_usage 3 3).2.2 = F64.finite 100 ∧
    (memory_usage 0 7).2.2 = F64.nonfinite ∧
    (memory_usage 4 4).2.2 = F64.finite 100 :=
  ⟨(c1_amended [⟨0, 0⟩] 4 7 3).1 rfl,
   (c1_amended [⟨8, 0⟩] 4 7 3).2.1 (by decide) (by decide),
   (c1_amended [⟨8, 0⟩] 4 7 3).2.2.1,
   (c1_amended [⟨8, 0⟩] 4 7 3).2.2.2.1 (by decide),
   (c1_amended [⟨8, 0⟩] 4 7 3).2.2.2.2.1,
   (c1_amended [⟨8, 0⟩] 4 7 3).2.2.2.2.2 (by decide)⟩

/-- C7: in `CleanupMenu` with `selected ≤ 3`, `up` at `0` wraps to `3`,
`down` at `3` wraps to `0`, and otherwise `up`/`down` decrement/increment
`selected` by one, over the fixed set of 4 options. -/
theorem c7_cleanup_wrap (procs : List TopProcess) (s : Nat) (h : s ≤ 3) :
    (run_app_step procs (AppMode.CleanupMenu 0) KeyCode.up).1 =
      some (AppMode.CleanupMenu 3) ∧
    (run_app_step procs (AppMode.CleanupMenu 3) KeyCode.down).1 =
      some (AppMode.CleanupMenu 0) ∧
    (0 < s → (run_app_step procs (AppMode.CleanupMenu s) KeyCode.up).1 =
      some (AppMode.CleanupMenu (s - 1))) ∧
    (s < 3 → (run_app_step procs (AppMode.CleanupMenu s) KeyCode.down).1 =
      some (AppMode.CleanupMenu (s + 1))) := by
  interval_cases s <;> simp [run_app_step]

/-- C7 witness: the wraparound and the unit steps at `selected = 2`. -/
theorem c7_cleanup_wrap_witness :
    (run_app_step [] (AppMode.CleanupMenu 0) KeyCode.up).1 =
      some (AppMode.CleanupMenu 3) ∧
    (run_app_step [] (AppMode.CleanupMenu 3) KeyCode.down).1 =
      some (AppMode.CleanupMenu 0) ∧
    (run_app_step [] (AppMode.CleanupMenu 2) KeyCode.up).1 =
      some (AppMode.CleanupMenu 1) ∧
    (run_app_step [] (AppMode.CleanupMenu 2) KeyCode.down).1 =
      some (AppMode.CleanupMenu 3) :=
  ⟨(c7_cleanup_wrap [] 2 (by decide)).1,
   (c7_cleanup_wrap [] 2 (by decide)).2.1,
   (c7_cleanup_wrap [] 2 (by decide)).2.2.1 (by decide),
   (c7_cleanup_wrap [] 2 (by decide)).2.2.2 (by decide)⟩

/-- C10: `kill_process` with an index at or past the end of the process
list sends no termination request and still returns `Ok` — the lookup is
the `Option`-returning `get`, so a stale index can neither go out of
bounds nor kill an unintended process. -/
theorem c10_kill_out_of_range (procs : List TopProcess) (i : Nat)
    (cmd : Nat → Except String Unit) (h : procs.length ≤ i) :
    kill_process procs i cmd = (none, Except.ok ()) := by
  unfold kill_process
  rw [List.getElem?_eq_none h]

/-- C10 witness: index 2 on a one-element list. -/
theorem c10_kill_out_of_range_witness :
    kill_process [⟨"p", 0, 0, 42⟩] 2 (fun _ => Except.ok ()) =
      (none, Except.ok ()) :=
  c10_kill_out_of_range [⟨"p", 0, 0, 42⟩] 2 (fun _ => Except.ok ()) (by decide)

/-- A concrete process with a given PID (zero cpu and memory), used in
witnesses. -/
def proc (pid : Nat) : TopProcess :=
  ⟨"p", 0, 0, pid⟩

/-- C4: the scanner's publish is one critical section that replaces
`node_modules` and `docker_images` and clears `scanning` together while
leaving `top_processes` untouched; the refresh's publish writes
`top_processes` and nothing else. -/
theorem c4_publish_frame (d : IssuesData) (nm : List NodeModulesEntry)
    (di : List DockerImage) (ps : List TopProcess)
    (walk : List WalkEntry) (docker : Option CmdOutput) :
    (scan_publish d nm di).top_processes = d.top_processes ∧
    (scan_publish d nm di).node_modules = nm ∧
    (scan_publish d nm di).docker_images = di ∧
    (scan_publish d nm di).scanning = false ∧
    (scan_issues walk docker d).top_processes = d.top_processes ∧
    (scan_issues walk docker d).scanning = false ∧
    (publish_top_processes d ps).node_modules = d.node_modules ∧
    (publish_top_processes d ps).docker_images = d.docker_images ∧
    (publish_top_processes d ps).scanning = d.scanning ∧
    (publish_top_processes d ps).top_processes = ps :=
  ⟨rfl, rfl, rfl, rfl, rfl, rfl, rfl, rfl, rfl, rfl⟩

/-- C9: the destructive actions are best-effort: `execute_cleanup` and
`kill_process` return `Ok` whatever the per-item outcomes; cleaning caches
attempts the deletion of every discovered entry in order no matter which
deletions fail; and confirming options 0–2 leaves the interaction loop in
the stable `Normal` mode. -/
theorem c9_best_effort (issues : IssuesData)
    (rm cmd : String → Except String Unit)
    (kcmd : Nat → Except String Unit)
    (procs : List TopProcess) (opt i : Nat) (hopt : opt < 3) :
    (execute_cleanup issues rm cmd opt).2 = Except.ok () ∧
    ((execute_cleanup issues rm cmd 0).1.map Prod.fst =
      issues.node_modules.map NodeModulesEntry.path) ∧
    (kill_process procs i kcmd).2 = Except.ok () ∧
    (run_app_step procs (AppMode.CleanupMenu opt) KeyCode.enter).1 =
      some AppMode.Normal := by
  refine ⟨?_, ?_, ?_, ?_⟩
  · rcases opt with _ | _ | _ | opt <;> rfl
  · simp [execute_cleanup, Function.comp]
  · unfold kill_process
    cases procs[i]? <;> rfl
  · have h3 : ¬ opt = 3 := by omega
    simp [run_app_step, h3]

/-- C9 witness: two cache entries, deletion failing on the first; both are
still attempted, all results are `Ok`, and confirming option 2 returns to
`Normal`. -/
theorem c9_best_effort_witness :
    (execute_cleanup ⟨[⟨"/a", 200000000⟩, ⟨"/b", 150000000⟩], [], [], false⟩
      (fun p => if p = "/a" then Except.error "denied" else Except.ok ())
      (fun _ => Except.ok ()) 2).2 = Except.ok () ∧
    ((execute_cleanup ⟨[⟨"/a", 200000000⟩, ⟨"/b", 150000000⟩], [], [], false⟩
      (fun p => if p = "/a" then Except.error "denied" else Except.ok ())
      (fun _ => Except.ok ()) 0).1.map Prod.fst = ["/a", "/b"]) ∧
    (kill_process [proc 9] 0 (fun _ => Except.ok ())).2 = Except.ok () ∧
    (run_app_step [proc 9] (AppMode.CleanupMenu 2) KeyCode.enter).1 =
      some AppMode.Normal :=
  c9_best_effort ⟨[⟨"/a", 200000000⟩, ⟨"/b", 150000000⟩], [], [], false⟩
    (fun p => if p = "/a" then Except.error "denied" else Except.ok ())
    (fun _ => Except.ok ()) (fun _ => Except.ok ()) [proc 9] 2 0 (by decide)

/-- C8: confirming in `KillProcessMenu` at an in-range index `s` moves the
mode to `CleanupMenu 0` and sends a termination request to exactly the PID
of the `s`-th listed process (one `killPid` effect, no other), while with
an empty process list confirm dispatches no termination at all. -/
theorem c8_kill_confirm (procs : List TopProcess) (s : Nat)
    (kcmd : Nat → Except String Unit) (hs : s < procs.length) :
    (run_app_step procs (AppMode.KillProcessMenu s) KeyCode.enter).1 =
      some (AppMode.CleanupMenu 0) ∧
    (run_app_step procs (AppMode.KillProcessMenu s) KeyCode.enter).2 =
      [Effect.killPid procs[s].pid] ∧
    (kill_process procs s kcmd).1 = some procs[s].pid ∧
    (run_app_step [] (AppMode.KillProcessMenu s) KeyCode.enter).2 = [] ∧
    (kill_process [] s kcmd).1 = none := by
  refine ⟨rfl, ?_, ?_, ?_, ?_⟩
  · simp [run_app_step, List.getElem?_eq_getElem hs]
  · unfold kill_process
    rw [List.getElem?_eq_getElem hs]
  · simp [run_app_step]
  · rfl

/-- C8 witness: confirming on the second of two listed processes kills
exactly PID 20. -/
theorem c8_kill_confirm_witness :
    (run_app_step [proc 10, proc 20] (AppMode.KillProcessMenu 1)
      KeyCode.enter).1 = some (AppMode.CleanupMenu 0) ∧
    (run_app_step [proc 10, proc 20] (AppMode.KillProcessMenu 1)
      KeyCode.enter).2 = [Effect.killPid 20] ∧
    (kill_process [proc 10, proc 20] 1 (fun _ => Except.ok ())).1 = some 20 ∧
    (run_app_step [] (AppMode.KillProcessMenu 1) KeyCode.enter).2 = [] ∧
    (kill_process [] 1 (fun _ => Except.ok ())).1 = none :=
  c8_kill_confirm [proc 10, proc 20] 1 (fun _ => Except.ok ()) (by decide)

/-- An input/refresh trace: open the cleanup menu, select the kill-menu
option, enter it, navigate down to index 4 while five processes are
listed, then a refresh shrinks the list to one process, then press up. -/
def c2_events : List SysEvent :=
  [SysEvent.key KeyCode.charC,
   SysEvent.key KeyCode.down, SysEvent.key KeyCode.down,
   SysEvent.key KeyCode.down, SysEvent.key KeyCode.enter,
   SysEvent.key KeyCode.down, SysEvent.key KeyCode.down,
   SysEvent.key KeyCode.down, SysEvent.key KeyCode.down,
   SysEvent.refresh [proc 1],
   SysEvent.key KeyCode.up]

/-- C2 counterexample: after the process list shrinks from five entries to
one, pressing `up` merely decrements the stale index (4 → 3) instead of
clamping it, so `selected = 3` exceeds `n − 1 = 0` for the live list of
length `n = 1`. -/
theorem c2_counterexample :
    sysRun ([proc 1, proc 2, proc 3, proc 4, proc 5], AppMode.Normal)
      c2_events = ([proc 1], AppMode.KillProcessMenu 3) ∧
    ¬ 3 ≤ List.length [proc 1] - 1 := by
  decide

/-- C2 (amended): as long as the process list does not change, every
`KillProcessMenu` key handler preserves `selected ≤ n − 1` (for `n ≥ 1`);
after a shrink the stale index is only re-clamped by `down` (and by
`enter`/`esc`, which leave the menu), not by `up` — but any read of a
stale index is still safe, because the kill action looks the index up with
the `Option`-returning `get`, so it either does nothing or kills a process
that is in the live list. -/
theorem c2_amended (procs : List TopProcess) (s s' : Nat) (k : KeyCode)
    (kcmd : Nat → Except String Unit)
    (_hlen : 1 ≤ procs.length) (hs : s ≤ procs.length - 1)
    (hstep : (run_app_step procs (AppMode.KillProcessMenu s) k).1 =
      some (AppMode.KillProcessMenu s')) :
    s' ≤ procs.length - 1 ∧
    ((kill_process procs s' kcmd).1 = none ∨
      ∃ p ∈ procs, (kill_process procs s' kcmd).1 = some p.pid) := by
  constructor
  · cases k <;> simp [run_app_step] at hstep <;>
      first
      | omega
      | (split at hstep <;> omega)
  · cases hp : procs[s']? with
    | none =>
        left
        unfold kill_process
        rw [hp]
    | some p =>
        right
        refine ⟨p, List.getElem?_mem hp, ?_⟩
        unfold kill_process
        rw [hp]

/-- C2 witness: from in-range `selected = 0` on a two-process list,
`down` yields `selected = 1`, still in range, and the kill lookup at that
index is safe. -/
theorem c2_amended_witness :
    1 ≤ List.length [proc 1, proc 2] - 1 ∧
    ((kill_process [proc 1, proc 2] 1 (fun _ => Except.ok ())).1 = none ∨
      ∃ p ∈ [proc 1, proc 2],
        (kill_process [proc 1, proc 2] 1 (fun _ => Except.ok ())).1 =
          some p.pid) :=
  c2_amended [proc 1, proc 2] 0 1 KeyCode.down (fun _ => Except.ok ())
    (by decide) (by decide) (by decide)

/-- Every entry kept by `scan_node_modules` passed the significance floor:
its size strictly exceeds `100_000_000` bytes. -/
theorem scan_node_modules_floor (walk : List WalkEntry)
    (e : NodeModulesEntry) (he : e ∈ scan_node_modules walk) :
    100000000 < e.size := by
  rw [scan_node_modules, List.mem_filterMap] at he
  obtain ⟨a, -, ha⟩ := he
  simp only [calculate_dir_size] at ha
  split at ha
  · split at ha
    · cases ha
      assumption
    · cases ha
  · cases ha

/-- Two equally-sized oversized cache directories. -/
def c3_walk : List WalkEntry :=
  [⟨"/a", "node_modules", true, [200000000]⟩,
   ⟨"/b", "node_modules", true, [200000000]⟩]

/-- C3 counterexample: with two cache directories of identical size the
published list is not STRICTLY descending — the comparator
`b.size.cmp(&a.size)` leaves ties adjacent. -/
theorem c3_counterexample :
    ¬ List.Pairwise (fun a b : NodeModulesEntry => b.size < a.size)
      (scan_caches c3_walk) := by
  decide

/-- C3 (amended): every published cache entry is at least 100MB (indeed
strictly above `100_000_000` bytes), the list is sorted descending by size
(non-strictly: equal sizes may be adjacent), and it has at most 10
elements. -/
theorem c3_amended (walk : List WalkEntry) :
    (∀ e ∈ scan_caches walk, 100000000 ≤ e.size) ∧
    List.Sorted size_desc (scan_caches walk) ∧
    (scan_caches walk).length ≤ 10 := by
  refine ⟨fun e he => ?_, ?_, List.length_take_le 10 _⟩
  · have h2 : e ∈ List.insertionSort size_desc (scan_node_modules walk) :=
      List.take_subset 10 _ he
    exact le_of_lt (scan_node_modules_floor walk e
      ((List.mem_insertionSort size_desc).mp h2))
  · exact List.Pairwise.sublist (List.take_sublist 10 _)
      (List.sorted_insertionSort size_desc _)

/-- C3 witness: a single 150MB cache directory is published, satisfies the
floor, and the list is within the cap. -/
theorem c3_amended_witness :
    100000000 ≤ (⟨"/w", 150000000⟩ : NodeModulesEntry).size ∧
    (scan_caches [⟨"/w", "node_modules", true, [150000000]⟩]).length ≤ 10 :=
  ⟨(c3_amended [⟨"/w", "node_modules", true, [150000000]⟩]).1
      ⟨"/w", 150000000⟩ (by decide),
   (c3_amended [⟨"/w", "node_modules", true, [150000000]⟩]).2.2⟩

/-- C5: `scan_docker_images` returns an empty list (not an error) when the
container-runtime command cannot be run at all or exits non-zero; on
success it parses each tab-separated line with at least three fields into
a `(name, size label, created label)` entry, skips malformed lines, and
keeps at most 10 entries; and whatever the command's fate, the scanner
still publishes with `scanning = false`. -/
theorem c5_docker_images (o : CmdOutput) (u : Option CmdOutput)
    (walk : List WalkEntry) (d : IssuesData) (hfail : o.success = false) :
    scan_docker_images none = [] ∧
    scan_docker_images (some o) = [] ∧
    (scan_docker_images u).length ≤ 10 ∧
    parse_image_line "repo:tag\t1.2GB\t2024-01-01" =
      some ⟨"repo:tag", "1.2GB", "2024-01-01"⟩ ∧
    parse_image_line "repo:tag\t1.2GB" = none ∧
    (scan_issues walk u d).scanning = false := by
  refine ⟨rfl, ?_, ?_, by decide, by decide, rfl⟩
  · simp [scan_docker_images, hfail]
  · cases u with
    | none => exact Nat.le_of_lt (by decide)
    | some o' =>
        by_cases hs : o'.success
        · simp only [scan_docker_images, hs, if_true]
          exact List.length_take_le 10 _
        · simp [scan_docker_images, hs]

/-- C5 witness: an absent tool, a failing tool, a good line, a malformed
line, and the cleared scanning flag, all at concrete inputs. -/
theorem c5_docker_images_witness :
    scan_docker_images none = [] ∧
    scan_docker_images (some ⟨false, "junk"⟩) = [] ∧
    (scan_docker_images none).length ≤ 10 ∧
    parse_image_line "repo:tag\t1.2GB\t2024-01-01" =
      some ⟨"repo:tag", "1.2GB", "2024-01-01"⟩ ∧
    parse_image_line "repo:tag\t1.2GB" = none ∧
    (scan_issues [] none IssuesData.default).scanning = false :=
  c5_docker_images ⟨false, "junk"⟩ none [] IssuesData.default rfl

/-- C6: the composite score is `cpu + memory / 1e6`; the published ranking
is the five highest-scoring processes in descending score order — it is a
prefix of a score-sorted permutation of the sample, so its length is
`min 5 n` and every kept process scores at least as high as every dropped
one.  The ranking is a pure function of the sample, hence deterministic,
with ties resolved by the sort's fixed insertion order. -/
theorem c6_rank (ps : List TopProcess) :
    (∀ p : TopProcess, composite_score p = p.cpu + (p.memory : ℚ) / 1000000) ∧
    List.Sorted score_desc (rank_processes ps) ∧
    (rank_processes ps).length = min 5 ps.length ∧
    (rank_processes ps ++ (List.insertionSort score_desc ps).drop 5).Perm ps ∧
    (∀ x ∈ rank_processes ps, ∀ y ∈ (List.insertionSort score_desc ps).drop 5,
      composite_score y ≤ composite_score x) := by
  refine ⟨fun _ => rfl, ?_, ?_, ?_, ?_⟩
  · exact List.Pairwise.sublist (List.take_sublist 5 _)
      (List.sorted_insertionSort score_desc ps)
  · rw [rank_processes, List.length_take, List.length_insertionSort]
  · rw [rank_processes, List.take_append_drop]
    exact List.perm_insertionSort score_desc ps
  · intro x hx y hy
    have hsorted := List.sorted_insertionSort score_desc ps
    rw [← List.take_append_drop 5 (List.insertionSort score_desc ps),
      List.Sorted, List.pairwise_append] at hsorted
    exact hsorted.2.2 x hx y hy

/-- A concrete process whose score is its index, used in the C6 witness. -/
def rp (i : Nat) : TopProcess :=
  ⟨"p", (i : ℚ), 0, i⟩

/-- C6 witness: on six processes with distinct scores the ranking keeps
five, and the dropped lowest scorer scores no more than the kept top
scorer. -/
theorem c6_rank_witness :
    (rank_processes [rp 0, rp 1, rp 2, rp 3, rp 4, rp 5]).length = 5 ∧
    composite_score (rp 0) ≤ composite_score (rp 5) :=
  ⟨(c6_rank [rp 0, rp 1, rp 2, rp 3, rp 4, rp 5]).2.2.1,
   (c6_rank [rp 0, rp 1, rp 2, rp 3, rp 4, rp 5]).2.2.2.2
     (rp 5) (by
       norm_num [rank_processes, List.insertionSort, List.orderedInsert,
         score_desc, composite_score, rp])
     (rp 0) (by
       norm_num [List.insertionSort, List.orderedInsert,
         score_desc, composite_score, rp])⟩
